import Mathlib

/-!
Verification of the report-submission service (src/app.py).

The development shallowly embeds the Python source: pure string
manipulation is translated to Lean functions over `String`/`List Char`,
and the effectful parts (the Telegram HTTP calls, the Excel file, the
Flask flash messages) are made explicit: the outcome of each external
interaction is an input to the embedded function, and the observable
effects (which send operations were invoked, which status messages were
flashed, whether the Excel append completed) are returned as data.
-/

/-! ### Python string primitives

Python's `str.strip`, `str.lower`, `"." in s` and `s.rsplit(".", 1)[1]`
are modelled over the character list of a `String` so that every
definition evaluates by kernel reduction. -/

/-- Python `s.strip()`: drop whitespace from both ends. -/
def pyStrip (s : String) : String :=
  String.mk (((s.data.dropWhile Char.isWhitespace).reverse.dropWhile Char.isWhitespace).reverse)

/-- Python `s.lower()` (per-character lowercasing). -/
def pyLower (s : String) : String :=
  String.mk (s.data.map Char.toLower)

/-- Python `"." in s`. -/
def hasDot (s : String) : Bool :=
  s.data.contains '.'

/-- Python `s.rsplit(".", 1)[1]` for a string that contains a dot:
the characters after the last '.'. -/
def extAfterLastDot (s : String) : String :=
  String.mk ((s.data.reverse.takeWhile (fun c => c != '.')).reverse)

/-- Python `f-string` interpolation of an optional string: `None`
prints as "None". -/
def pyRepr (o : Option String) : String :=
  match o with
  | none => "None"
  | some s => s

/-! ### Configuration (src/app.py lines 35-40) -/

/-- Splits a character list on a separator character (Python `str.split(",")`). -/
def splitOnChar (sep : Char) : List Char → List (List Char)
  | [] => [[]]
  | c :: rest =>
    let r := splitOnChar sep rest
    if c = sep then [] :: r
    else
      match r with
      | [] => [[c]]
      | h :: t => (c :: h) :: t

/-- Lines 35-38: `ALLOWED_EXTENSIONS` built from a comma-separated
configuration string; each part is stripped and lower-cased, empty
parts are dropped.  The Python value is a set; membership is all that
is ever used of it, so a list models it. -/
def allowed_exts_of (raw : String) : List String :=
  (((splitOnChar ',' raw.data).map String.mk).filter (fun x => pyStrip x != "")).map
    (fun x => pyLower (pyStrip x))

/-- Line 36: the default allow-list configuration string. -/
def ALLOWED_EXTENSIONS : List String :=
  allowed_exts_of "jpg,jpeg,png,pdf,doc,docx,xls,xlsx,txt,zip"

/-- Line 40: `IMAGE_EXTENSIONS`. -/
def IMAGE_EXTENSIONS : List String :=
  [ "jpg", "jpeg", "png" ]

/-! ### Extension helpers (src/app.py lines 45-52) -/

/-- Lines 45-46: `allowed_file`, parameterised by the configured
allow-list (the Python function reads the global `ALLOWED_EXTENSIONS`). -/
def allowed_file (allowed : List String) (filename : String) : Bool :=
  hasDot filename && allowed.contains (pyLower (extAfterLastDot filename))

/-- Lines 49-52: `get_ext`. -/
def get_ext (filename : String) : String :=
  if hasDot filename then pyLower (extAfterLastDot filename) else ""

/-! ### Messaging client (src/app.py lines 59-123)

Each `tg_send_*` function performs at most one HTTP exchange.  The
outcome of that exchange, were it attempted, is an explicit input: -/

/-- Outcome of the (single) HTTP exchange a send operation would
perform: either some exception is raised (transport error, file-open
error, malformed JSON — Python catches all of them alike and keeps
`str(e)`), or a JSON response arrives carrying an optional `ok` flag
and an optional `description`. -/
inductive NetOutcome
  | exc (msg : String)
  | resp (okFlag : Option Bool) (description : Option String)
deriving DecidableEq

/-- The bot credential and destination chat id (`BOT_TOKEN`, `CHAT_ID`,
lines 17-18; both already stripped at load). -/
structure TgConfig where
  botToken : String
  chatId : String
deriving DecidableEq

/-- The dictionary each `tg_send_*` function returns, projected to the
two keys the caller reads: `ok` and `error`.  A successful call returns
the Telegram response itself, which has `ok = True` and no `error` key. -/
structure SendResult where
  ok : Bool
  error : Option String
deriving DecidableEq

/-- Lines 59-75: `tg_send_message`.  The second component of the result
records whether the network exchange was attempted (the `requests.post`
call is reached): `false` exactly when the configuration check
short-circuits. -/
def tg_send_message (cfg : TgConfig) (text : String) (net : NetOutcome) :
    SendResult × Bool :=
  let _ := text
  if cfg.botToken = "" ∨ cfg.chatId = "" then
    (⟨false, some "BOT_TOKEN or CHAT_ID not set"⟩, false)
  else
    match net with
    | .exc m => (⟨false, some m⟩, true)
    | .resp okFlag description =>
      if okFlag = some true then (⟨true, none⟩, true)
      else (⟨false, some (description.getD "Telegram error")⟩, true)

/-- Lines 78-99: `tg_send_document` (the caption is truncated to 1024
characters before being put in the multipart payload; the payload is
not otherwise observable in the result). -/
def tg_send_document (cfg : TgConfig) (caption : String) (net : NetOutcome) :
    SendResult × Bool :=
  let _ := caption.take 1024
  if cfg.botToken = "" ∨ cfg.chatId = "" then
    (⟨false, some "BOT_TOKEN or CHAT_ID not set"⟩, false)
  else
    match net with
    | .exc m => (⟨false, some m⟩, true)
    | .resp okFlag description =>
      if okFlag = some true then (⟨true, none⟩, true)
      else (⟨false, some (description.getD "Telegram error")⟩, true)

/-- Lines 102-123: `tg_send_photo` (same shape as `tg_send_document`,
different endpoint and payload key). -/
def tg_send_photo (cfg : TgConfig) (caption : String) (net : NetOutcome) :
    SendResult × Bool :=
  let _ := caption.take 1024
  if cfg.botToken = "" ∨ cfg.chatId = "" then
    (⟨false, some "BOT_TOKEN or CHAT_ID not set"⟩, false)
  else
    match net with
    | .exc m => (⟨false, some m⟩, true)
    | .resp okFlag description =>
      if okFlag = some true then (⟨true, none⟩, true)
      else (⟨false, some (description.getD "Telegram error")⟩, true)

/-! ### The Report (src/app.py lines 234-240)

One value per field of the submission form; `request.form.get(f, "")`
defaults every missing field to the empty string, so every field is a
plain string. -/

structure Report where
  date : String
  shift : String
  name : String
  total_glasses : String
  total_money : String
  aba_usd : String
  aba_khr : String
  acleda_usd : String
  acleda_khr : String
  other_bank : String
  cash_usd : String
  cash_khr : String
  expense : String
  balance_status : String
  balance_amount : String
  Time : String
deriving DecidableEq

/-! ### Message formatter (src/app.py lines 160-226) -/

/-- The fixed header line of every formatted message (line 167). -/
def headerLine : String := "📋 របាយការណ៍ថ្មី"

/-- One conditional `lines.append(label + clean(value))` of
`build_tg_message`: the line is emitted iff the cleaned value is
non-empty (Python string truthiness). -/
def fieldLines (label v : String) : List String :=
  if pyStrip v ≠ "" then [label ++ pyStrip v] else []

/-- Lines 169-177: the identity/date lines (`# Basic info`). -/
def basicLines (d : Report) : List String :=
  fieldLines "📅 កាលបរិច្ឆេទ: " d.date
    ++ fieldLines "⏰ ម៉ោង: " d.Time
    ++ fieldLines "⏰ វេន: " d.shift
    ++ fieldLines "👤 ឈ្មោះ: " d.name

/-- Lines 179-183: the sales lines (`# Sales`). -/
def salesLines (d : Report) : List String :=
  fieldLines "🥤 ចំនួនកែវ: " d.total_glasses
    ++ fieldLines "💵 លុយសរុប: " d.total_money

/-- Lines 186-196: `bank_lines`. -/
def bankLines (d : Report) : List String :=
  fieldLines "🏦 ABA ($): " d.aba_usd
    ++ fieldLines "🏦 ABA (៛): " d.aba_khr
    ++ fieldLines "🏦 ACLEDA ($): " d.acleda_usd
    ++ fieldLines "🏦 ACLEDA (៛): " d.acleda_khr
    ++ fieldLines "🏦 Other Bank: " d.other_bank

/-- Lines 203-209: `money_lines`. -/
def moneyLines (d : Report) : List String :=
  fieldLines "💰 លុយដុល្លារ: " d.cash_usd
    ++ fieldLines "💰 លុយរៀល: " d.cash_khr
    ++ fieldLines "💸 ចំណាយ: " d.expense

/-- Lines 215-224: the balance line (at most one). -/
def balanceLines (d : Report) : List String :=
  let s := pyStrip d.balance_status
  let a := pyStrip d.balance_amount
  if s ≠ "" ∨ a ≠ "" then
    if s ≠ "" ∧ a ≠ "" then ["⚖️ ស្ថានភាព: " ++ s ++ " / " ++ a]
    else if s ≠ "" then ["⚖️ ស្ថានភាព: " ++ s]
    else ["⚖️ ស្ថានភាព: " ++ a]
  else []

/-- Lines 160-226: the `lines` list of `build_tg_message` just before
the join.  The Python code appends the header, then each basic-info and
sales line, then — only when `bank_lines` is non-empty — a blank line
followed by `bank_lines`, likewise for `money_lines`, and finally the
balance line. -/
def msgLines (d : Report) : List String :=
  [headerLine]
    ++ basicLines d
    ++ salesLines d
    ++ (if bankLines d ≠ [] then [""] ++ bankLines d else [])
    ++ (if moneyLines d ≠ [] then [""] ++ moneyLines d else [])
    ++ balanceLines d

/-- Line 226: `"\n".join(lines)`. -/
def build_tg_message (d : Report) : String :=
  String.intercalate "\n" (msgLines d)

/-! ### Ledger store (src/app.py lines 126-157, 297-302)

A spreadsheet is a header row of column names plus data rows; a cell is
missing (`NaN`/`NA`), a string, or a number. -/

inductive Cell
  | na
  | str (s : String)
  | num (n : Int)
deriving DecidableEq

/-- A pandas DataFrame, as far as this program observes it. -/
structure DataFrame where
  cols : List String
  rows : List (List Cell)
deriving DecidableEq

/-- Line 148: `x.strip() if isinstance(x, str) else x`. -/
def cellStrip : Cell → Cell
  | .str s => .str (pyStrip s)
  | c => c

/-- Line 151: `df.replace(r"^\s*$", pd.NA, regex=True)` — a string cell
consisting only of whitespace (including the empty string) becomes NA. -/
def blankToNA : Cell → Cell
  | .str s => if s.data.all Char.isWhitespace then .na else .str s
  | c => c

/-- Lines 137-157: `load_reports_df`.  The argument is the persisted
spreadsheet, `none` when `EXCEL_FILE` does not exist.  Column selection
is by position: `df.columns[df.notna().any()]` keeps, in order, the
columns with at least one non-NA cell. -/
def load_reports_df (stored : Option DataFrame) : DataFrame :=
  match stored with
  | none => ⟨[], []⟩
  | some df =>
    let rows := df.rows.map (fun r => r.map (fun c => blankToNA (cellStrip c)))
    let keep := (List.range df.cols.length).filter
      (fun i => rows.any (fun r => r.getD i Cell.na != Cell.na))
    ⟨keep.map (fun i => df.cols.getD i ""),
     rows.map (fun r => keep.map (fun i => r.getD i Cell.na))⟩

/-- Line 301: `df.fillna("")` — NA cells render as empty strings. -/
def fillCell : Cell → Cell
  | .na => .str ""
  | c => c

/-- Lines 297-302: the `/reports` route — the columns and the rows
(with NA rendered as "") handed to the template. -/
def reports_view (stored : Option DataFrame) : List String × List (List Cell) :=
  let df := load_reports_df stored
  (df.cols, df.rows.map (fun r => r.map fillCell))

/-! ### The submission route (src/app.py lines 231-292)

External effects are explicit inputs (`Env`) and observable outputs
(`HandlerResult`).  The upload plumbing (`secure_filename`, the
temporary file, its best-effort deletion) is treated as an external
collaborator: `upload` is the secured filename when
`uploaded and uploaded.filename` was truthy, `none` otherwise. -/

/-- The environment of one POST request: the process configuration and
the outcome of each external interaction the handler might attempt. -/
structure Env where
  allowed : List String
  cfg : TgConfig
  excelOutcome : Except String Unit
  netText : NetOutcome
  netAttach : NetOutcome

/-- Which send operation was invoked. -/
inductive SendCall
  | sendMessage
  | sendDocument
  | sendPhoto
deriving DecidableEq

/-- The status messages the handler can flash, one constructor per
`flash(...)` call site; `flashText` gives the literal text/category. -/
inductive Flash
  | excelWarning (e : String)
  | fileTypeNotAllowed (filename : String)
  | sendSuccess
  | sendFailure (err : String)
deriving DecidableEq

/-- The f-string and category of each flash call (lines 246, 256, 287, 290). -/
def flashText : Flash → String × String
  | .excelWarning e => ( "⚠️ Could not save to Excel: " ++ e, "error" )
  | .fileTypeNotAllowed filename => ( "File type not allowed: " ++ filename, "error" )
  | .sendSuccess => ( "Report sent to Telegram ✅ and saved to Excel 📊", "success" )
  | .sendFailure err => ( "Failed to send report. Error: " ++ err, "error" )

/-- What one POST request observably did. -/
structure HandlerResult where
  excelWritten : Bool
  calls : List SendCall
  flashes : List Flash
  aborted : Bool
deriving DecidableEq

/-- Line 272: the attachment caption. -/
def attachment_caption (d : Report) : String :=
  "Attachment from " ++ (if pyStrip d.name = "" then "Staff" else pyStrip d.name)

/-- Lines 274-277: photo for image extensions, document otherwise. -/
def attach_send (cfg : TgConfig) (caption : String) (net : NetOutcome) (ext : String) :
    SendResult × Bool :=
  if IMAGE_EXTENSIONS.contains ext then tg_send_photo cfg caption net
  else tg_send_document cfg caption net

/-- The send call the attachment dispatch makes. -/
def attachKind (ext : String) : SendCall :=
  if IMAGE_EXTENSIONS.contains ext then .sendPhoto else .sendDocument

/-- Lines 266-292: the tail of the handler once the attachment (if any)
has been validated; `attachExt` is `get_ext filename` of the accepted
attachment. -/
def send_stage (env : Env) (d : Report) (attachExt : Option String)
    (excelWritten : Bool) (fl : List Flash) : HandlerResult :=
  let message := build_tg_message d
  let send_res := (tg_send_message env.cfg message env.netText).1
  let attach_res : Option SendResult :=
    attachExt.map (fun ext => (attach_send env.cfg (attachment_caption d) env.netAttach ext).1)
  let ok_any : Bool := send_res.ok ||
    (match attach_res with | some r => r.ok | none => false)
  let resultFlash : Flash :=
    if ok_any then .sendSuccess
    else
      let lhsTruthy : Bool := match send_res.error with
        | some e => e != ""
        | none => false
      let err : Option String :=
        if lhsTruthy then send_res.error
        else match attach_res with
          | some r => r.error
          | none => some "Unknown error"
      .sendFailure (pyRepr err)
  { excelWritten := excelWritten
    calls := [SendCall.sendMessage]
      ++ (match attachExt with | some ext => [attachKind ext] | none => [])
    flashes := fl ++ [resultFlash]
    aborted := false }

/-- Lines 231-292: the POST branch of `index`.  `save_to_excel` runs
first (its failure is caught and flashed); only then is the attachment
extension validated, aborting the request on failure; otherwise the
text message and (if an attachment is present) the attachment are sent
and a combined status is flashed. -/
def index_post (env : Env) (d : Report) (upload : Option String) : HandlerResult :=
  let excelWritten : Bool := match env.excelOutcome with
    | .ok _ => true
    | .error _ => false
  let excelFlashes : List Flash := match env.excelOutcome with
    | .ok _ => []
    | .error e => [.excelWarning e]
  match upload with
  | none => send_stage env d none excelWritten excelFlashes
  | some filename =>
    if allowed_file env.allowed filename then
      send_stage env d (some (get_ext filename)) excelWritten excelFlashes
    else
      { excelWritten := excelWritten
        calls := []
        flashes := excelFlashes ++ [.fileTypeNotAllowed filename]
        aborted := true }

/-! ## Helper lemmas -/

lemma append_ne_empty_left (a b : String) (h : a ≠ "") : a ++ b ≠ "" := by
  intro he
  apply h
  have hd := congrArg String.data he
  rw [String.data_append] at hd
  have ha : a.data = [] := (List.append_eq_nil.mp hd).1
  cases a with
  | mk l =>
    simp only [String.data] at ha
    rw [ha]

lemma allowed_file_iff (allowed : List String) (fn : String) :
    allowed_file allowed fn = true ↔ (hasDot fn = true ∧ get_ext fn ∈ allowed) := by
  simp only [allowed_file, get_ext, Bool.and_eq_true]
  cases h : hasDot fn
  · simp [h]
  · simp [h, List.contains, List.elem_iff]

/-! ## C10 — missing ledger file yields an empty view -/

/-- C10: when the ledger spreadsheet file does not exist,
`load_reports_df` returns an empty table (no columns, no rows) and the
listing route renders an empty view. -/
theorem missing_ledger_empty_view :
    load_reports_df none = ⟨[], []⟩ ∧ reports_view none = ([], []) :=
  ⟨rfl, rfl⟩

/-! ## C9 — the extension check -/

/-- C9: `allowed_file` accepts exactly when the filename contains a '.'
and the substring after the last '.' lower-cases to a member of the
allow-list; in particular "report.PDF" is accepted whenever "pdf" is
allowed, and a filename with no '.' is always rejected. -/
theorem extension_check_characterisation :
    (∀ (allowed : List String) (fn : String),
        allowed_file allowed fn = true ↔ (hasDot fn = true ∧ get_ext fn ∈ allowed)) ∧
    (∀ allowed : List String, "pdf" ∈ allowed → allowed_file allowed "report.PDF" = true) ∧
    (∀ allowed : List String, allowed_file allowed "report" = false) := by
  refine ⟨allowed_file_iff, fun allowed h => ?_, fun allowed => ?_⟩
  · refine (allowed_file_iff allowed "report.PDF").mpr ⟨by decide, ?_⟩
    rw [show get_ext "report.PDF" = "pdf" from by decide]
    exact h
  · cases hb : allowed_file allowed "report"
    · rfl
    · exact absurd ((allowed_file_iff allowed "report").mp hb).1 (by decide)

/-- Witness for C9 at concrete inputs. -/
theorem extension_check_characterisation_witness :
    ( "pdf" ∈ [ "pdf", "jpg" ]) ∧
    allowed_file [ "pdf", "jpg" ] "report.PDF" = true ∧
    allowed_file [ "pdf", "jpg" ] "report" = false :=
  ⟨by decide,
   extension_check_characterisation.2.1 [ "pdf", "jpg" ] (by decide),
   extension_check_characterisation.2.2 [ "pdf", "jpg" ]⟩

/-! ## C6 — missing configuration short-circuits every send operation -/

/-- C6: if the bot credential or the chat id is the empty string, each
of the three send operations returns the configuration-error result and
the network exchange is not attempted (second component `false`),
whatever the network would have answered. -/
theorem send_ops_config_missing (cfg : TgConfig) (text cap1 cap2 : String)
    (n1 n2 n3 : NetOutcome) (h : cfg.botToken = "" ∨ cfg.chatId = "") :
    tg_send_message cfg text n1 = (⟨false, some "BOT_TOKEN or CHAT_ID not set"⟩, false) ∧
    tg_send_document cfg cap1 n2 = (⟨false, some "BOT_TOKEN or CHAT_ID not set"⟩, false) ∧
    tg_send_photo cfg cap2 n3 = (⟨false, some "BOT_TOKEN or CHAT_ID not set"⟩, false) := by
  refine ⟨?_, ?_, ?_⟩
  · simp only [tg_send_message]
    rw [if_pos h]
  · simp only [tg_send_document]
    rw [if_pos h]
  · simp only [tg_send_photo]
    rw [if_pos h]

/-- Witness for C6: unset bot token, all three operations. -/
theorem send_ops_config_missing_witness :
    tg_send_message ⟨ "", "chat" ⟩ "hello" (.resp (some true) none)
      = (⟨false, some "BOT_TOKEN or CHAT_ID not set"⟩, false) ∧
    tg_send_document ⟨ "", "chat" ⟩ "cap" (.exc "io")
      = (⟨false, some "BOT_TOKEN or CHAT_ID not set"⟩, false) ∧
    tg_send_photo ⟨ "", "chat" ⟩ "cap" (.resp none none)
      = (⟨false, some "BOT_TOKEN or CHAT_ID not set"⟩, false) :=
  send_ops_config_missing ⟨ "", "chat" ⟩ "hello" "cap" "cap" _ _ _ (Or.inl rfl)

/-! ## C7 — every send operation returns the uniform failure shape -/

/-- C7: with the configuration present, each send operation is a total
function of the network outcome (no exception propagates): a raised
exception becomes the failure result carrying the exception text, a
response whose `ok` flag is not `true` (false or absent) becomes the
failure result carrying the service description (or "Telegram error"
when none is given), and an acknowledged response is a success. -/
theorem send_ops_failure_shape (cfg : TgConfig) (text cap1 cap2 : String)
    (h : ¬(cfg.botToken = "" ∨ cfg.chatId = "")) :
    (∀ m, (tg_send_message cfg text (.exc m)).1 = ⟨false, some m⟩ ∧
          (tg_send_document cfg cap1 (.exc m)).1 = ⟨false, some m⟩ ∧
          (tg_send_photo cfg cap2 (.exc m)).1 = ⟨false, some m⟩) ∧
    (∀ okF desc, okF ≠ some true →
          (tg_send_message cfg text (.resp okF desc)).1
            = ⟨false, some (desc.getD "Telegram error")⟩ ∧
          (tg_send_document cfg cap1 (.resp okF desc)).1
            = ⟨false, some (desc.getD "Telegram error")⟩ ∧
          (tg_send_photo cfg cap2 (.resp okF desc)).1
            = ⟨false, some (desc.getD "Telegram error")⟩) ∧
    (∀ desc, (tg_send_message cfg text (.resp (some true) desc)).1 = ⟨true, none⟩ ∧
          (tg_send_document cfg cap1 (.resp (some true) desc)).1 = ⟨true, none⟩ ∧
          (tg_send_photo cfg cap2 (.resp (some true) desc)).1 = ⟨true, none⟩) := by
  refine ⟨fun m => ⟨?_, ?_, ?_⟩, fun okF desc hok => ⟨?_, ?_, ?_⟩, fun desc => ⟨?_, ?_, ?_⟩⟩
  all_goals simp only [tg_send_message, tg_send_document, tg_send_photo]
  all_goals rw [if_neg h]
  all_goals first
    | rfl
    | simp [hok]

/-- Witness for C7: exception, rejected response with a description,
and a response with no `ok` flag. -/
theorem send_ops_failure_shape_witness :
    (tg_send_message ⟨ "t", "c" ⟩ "hi" (.exc "boom")).1 = ⟨false, some "boom"⟩ ∧
    (tg_send_document ⟨ "t", "c" ⟩ "cap" (.resp (some false) (some "bad request"))).1
      = ⟨false, some "bad request"⟩ ∧
    (tg_send_photo ⟨ "t", "c" ⟩ "cap" (.resp none none)).1 = ⟨false, some "Telegram error"⟩ := by
  have h := send_ops_failure_shape ⟨ "t", "c" ⟩ "hi" "cap" "cap" (by decide)
  exact ⟨(h.1 "boom").1,
    (h.2.1 (some false) (some "bad request") (by decide)).2.1,
    (h.2.1 none none (by decide)).2.2⟩

/-! ## C5 — an all-blank report formats to the header alone -/

lemma pyStrip_of_all_whitespace (v : String) (h : v.data.all Char.isWhitespace = true) :
    pyStrip v = "" := by
  unfold pyStrip
  have h1 : v.data.dropWhile Char.isWhitespace = [] :=
    List.dropWhile_eq_nil_iff.mpr (fun x hx => List.all_eq_true.mp h x hx)
  rw [h1]
  rfl

/-- Every field of the report is the empty string or whitespace-only. -/
abbrev allFieldsBlank (d : Report) : Prop :=
  d.date.data.all Char.isWhitespace = true ∧
  d.shift.data.all Char.isWhitespace = true ∧
  d.name.data.all Char.isWhitespace = true ∧
  d.total_glasses.data.all Char.isWhitespace = true ∧
  d.total_money.data.all Char.isWhitespace = true ∧
  d.aba_usd.data.all Char.isWhitespace = true ∧
  d.aba_khr.data.all Char.isWhitespace = true ∧
  d.acleda_usd.data.all Char.isWhitespace = true ∧
  d.acleda_khr.data.all Char.isWhitespace = true ∧
  d.other_bank.data.all Char.isWhitespace = true ∧
  d.cash_usd.data.all Char.isWhitespace = true ∧
  d.cash_khr.data.all Char.isWhitespace = true ∧
  d.expense.data.all Char.isWhitespace = true ∧
  d.balance_status.data.all Char.isWhitespace = true ∧
  d.balance_amount.data.all Char.isWhitespace = true ∧
  d.Time.data.all Char.isWhitespace = true

/-- C5: for a report in which every field is empty or whitespace-only,
the formatted message is exactly the fixed header line. -/
theorem all_blank_report_message (d : Report) (h : allFieldsBlank d) :
    msgLines d = [headerLine] ∧ build_tg_message d = headerLine := by
  obtain ⟨h1, h2, h3, h4, h5, h6, h7, h8, h9, h10, h11, h12, h13, h14, h15, h16⟩ := h
  have e1 := pyStrip_of_all_whitespace _ h1
  have e2 := pyStrip_of_all_whitespace _ h2
  have e3 := pyStrip_of_all_whitespace _ h3
  have e4 := pyStrip_of_all_whitespace _ h4
  have e5 := pyStrip_of_all_whitespace _ h5
  have e6 := pyStrip_of_all_whitespace _ h6
  have e7 := pyStrip_of_all_whitespace _ h7
  have e8 := pyStrip_of_all_whitespace _ h8
  have e9 := pyStrip_of_all_whitespace _ h9
  have e10 := pyStrip_of_all_whitespace _ h10
  have e11 := pyStrip_of_all_whitespace _ h11
  have e12 := pyStrip_of_all_whitespace _ h12
  have e13 := pyStrip_of_all_whitespace _ h13
  have e14 := pyStrip_of_all_whitespace _ h14
  have e15 := pyStrip_of_all_whitespace _ h15
  have e16 := pyStrip_of_all_whitespace _ h16
  have hm : msgLines d = [headerLine] := by
    simp [msgLines, basicLines, salesLines, bankLines, moneyLines, balanceLines, fieldLines,
      e1, e2, e3, e4, e5, e6, e7, e8, e9, e10, e11, e12, e13, e14, e15, e16]
  refine ⟨hm, ?_⟩
  rw [build_tg_message, hm]
  rfl

/-- A concrete all-blank report: every field empty or whitespace. -/
def blankReport : Report :=
  ⟨ " ", "", "  ", "", " ", "", "", " ", "", "", "", " ", "", "", " ", "" ⟩

/-- Witness for C5. -/
theorem all_blank_report_message_witness :
    allFieldsBlank blankReport ∧ build_tg_message blankReport = "📋 របាយការណ៍ថ្មី" :=
  ⟨by decide, (all_blank_report_message blankReport (by decide)).2⟩

/-! ## C4 — the balance line -/

/-- C4: the balance line of the formatted message is "status / amount"
when both are non-empty after trimming, the status alone when only the
status is non-empty, the amount alone when only the amount is, and no
balance line at all when both are empty (the message then ends with the
cash/expense block). -/
theorem balance_line_cases (d : Report) :
    (pyStrip d.balance_status ≠ "" ∧ pyStrip d.balance_amount ≠ "" →
      msgLines d = [headerLine] ++ basicLines d ++ salesLines d
        ++ (if bankLines d ≠ [] then [""] ++ bankLines d else [])
        ++ (if moneyLines d ≠ [] then [""] ++ moneyLines d else [])
        ++ ["⚖️ ស្ថានភាព: " ++ pyStrip d.balance_status ++ " / " ++ pyStrip d.balance_amount]) ∧
    (pyStrip d.balance_status ≠ "" ∧ pyStrip d.balance_amount = "" →
      msgLines d = [headerLine] ++ basicLines d ++ salesLines d
        ++ (if bankLines d ≠ [] then [""] ++ bankLines d else [])
        ++ (if moneyLines d ≠ [] then [""] ++ moneyLines d else [])
        ++ ["⚖️ ស្ថានភាព: " ++ pyStrip d.balance_status]) ∧
    (pyStrip d.balance_status = "" ∧ pyStrip d.balance_amount ≠ "" →
      msgLines d = [headerLine] ++ basicLines d ++ salesLines d
        ++ (if bankLines d ≠ [] then [""] ++ bankLines d else [])
        ++ (if moneyLines d ≠ [] then [""] ++ moneyLines d else [])
        ++ ["⚖️ ស្ថានភាព: " ++ pyStrip d.balance_amount]) ∧
    (pyStrip d.balance_status = "" ∧ pyStrip d.balance_amount = "" →
      msgLines d = [headerLine] ++ basicLines d ++ salesLines d
        ++ (if bankLines d ≠ [] then [""] ++ bankLines d else [])
        ++ (if moneyLines d ≠ [] then [""] ++ moneyLines d else [])) := by
  refine ⟨fun h => ?_, fun h => ?_, fun h => ?_, fun h => ?_⟩ <;> obtain ⟨hs, ha⟩ := h
  · have hb : balanceLines d
        = ["⚖️ ស្ថានភាព: " ++ pyStrip d.balance_status ++ " / " ++ pyStrip d.balance_amount] := by
      simp [balanceLines, hs, ha]
    rw [msgLines, hb]
  · have hb : balanceLines d = ["⚖️ ស្ថានភាព: " ++ pyStrip d.balance_status] := by
      simp [balanceLines, hs, ha]
    rw [msgLines, hb]
  · have hb : balanceLines d = ["⚖️ ស្ថានភាព: " ++ pyStrip d.balance_amount] := by
      simp [balanceLines, hs, ha]
    rw [msgLines, hb]
  · have hb : balanceLines d = [] := by
      simp [balanceLines, hs, ha]
    rw [msgLines, hb]
    simp

/-- A report with both balance fields populated (with surrounding
whitespace on the status). -/
def balanceSampleReport : Report :=
  ⟨ "", "", "", "", "", "", "", "", "", "", "", "", "", " ok ", "5", "" ⟩

/-- Witness for C4: both balance fields set. -/
theorem balance_line_cases_witness :
    (pyStrip " ok " ≠ "" ∧ pyStrip "5" ≠ "") ∧
    msgLines balanceSampleReport = ["📋 របាយការណ៍ថ្មី", "⚖️ ស្ថានភាព: ok / 5"] :=
  ⟨by decide, by exact (balance_line_cases balanceSampleReport).1 (by decide)⟩

/-! ## C3 — blank separator lines between groups -/

/-- The lines of the formatted message as claim C3 describes them
(refinement target, following the claim's words, not the source):
every group with at least one populated line — except the first group,
identity/date — is preceded by exactly one blank separator line, and
empty groups contribute nothing. -/
def separatorSpecLines (d : Report) : List String :=
  [headerLine] ++ basicLines d
    ++ (if salesLines d = [] then [] else [""] ++ salesLines d)
    ++ (if bankLines d = [] then [] else [""] ++ bankLines d)
    ++ (if moneyLines d = [] then [] else [""] ++ moneyLines d)
    ++ (if balanceLines d = [] then [] else [""] ++ balanceLines d)

/-- A report with a populated identity group, a populated sales group
and a populated balance group. -/
def separatorSampleReport : Report :=
  ⟨ "2024-01-01", "", "", "7", "", "", "", "", "", "", "", "", "", "ok", "", "" ⟩

/-- Counterexample to C3 as stated: the code emits the sales line and
the balance line with no preceding blank separator, so the message
differs from the claim's layout on this report. -/
theorem separator_claim_counterexample :
    msgLines separatorSampleReport ≠ separatorSpecLines separatorSampleReport := by
  decide

lemma blank_not_mem_fieldLines (label v : String) (h : label ≠ "") :
    "" ∉ fieldLines label v := by
  unfold fieldLines
  split
  · simp only [List.mem_singleton]
    intro he
    exact append_ne_empty_left label (pyStrip v) h he.symm
  · simp

lemma blank_not_mem_append {l₁ l₂ : List String} (h₁ : "" ∉ l₁) (h₂ : "" ∉ l₂) :
    "" ∉ l₁ ++ l₂ := by
  intro h
  rcases List.mem_append.mp h with h | h
  exacts [h₁ h, h₂ h]

lemma blank_not_mem_basic (d : Report) : "" ∉ basicLines d :=
  blank_not_mem_append
    (blank_not_mem_append
      (blank_not_mem_append
        (blank_not_mem_fieldLines _ _ (by decide))
        (blank_not_mem_fieldLines _ _ (by decide)))
      (blank_not_mem_fieldLines _ _ (by decide)))
    (blank_not_mem_fieldLines _ _ (by decide))

lemma blank_not_mem_sales (d : Report) : "" ∉ salesLines d :=
  blank_not_mem_append
    (blank_not_mem_fieldLines _ _ (by decide))
    (blank_not_mem_fieldLines _ _ (by decide))

lemma blank_not_mem_bank (d : Report) : "" ∉ bankLines d :=
  blank_not_mem_append
    (blank_not_mem_append
      (blank_not_mem_append
        (blank_not_mem_append
          (blank_not_mem_fieldLines _ _ (by decide))
          (blank_not_mem_fieldLines _ _ (by decide)))
        (blank_not_mem_fieldLines _ _ (by decide)))
      (blank_not_mem_fieldLines _ _ (by decide)))
    (blank_not_mem_fieldLines _ _ (by decide))

lemma blank_not_mem_money (d : Report) : "" ∉ moneyLines d :=
  blank_not_mem_append
    (blank_not_mem_append
      (blank_not_mem_fieldLines _ _ (by decide))
      (blank_not_mem_fieldLines _ _ (by decide)))
    (blank_not_mem_fieldLines _ _ (by decide))

lemma blank_not_mem_balance (d : Report) : "" ∉ balanceLines d := by
  simp only [balanceLines]
  split
  · split
    · simp only [List.mem_singleton]
      intro he
      exact append_ne_empty_left _ _
        (append_ne_empty_left _ _ (append_ne_empty_left _ _ (by decide))) he.symm
    · split
      · simp only [List.mem_singleton]
        intro he
        exact append_ne_empty_left _ _ (by decide) he.symm
      · simp only [List.mem_singleton]
        intro he
        exact append_ne_empty_left _ _ (by decide) he.symm
  · simp

lemma count_blank_msgLines (d : Report) :
    (msgLines d).count ""
      = (if bankLines d = [] then 0 else 1) + (if moneyLines d = [] then 0 else 1) := by
  have cb := List.count_eq_zero.mpr (blank_not_mem_basic d)
  have cs := List.count_eq_zero.mpr (blank_not_mem_sales d)
  have cbk := List.count_eq_zero.mpr (blank_not_mem_bank d)
  have cm := List.count_eq_zero.mpr (blank_not_mem_money d)
  have cbl := List.count_eq_zero.mpr (blank_not_mem_balance d)
  unfold msgLines
  by_cases h1 : bankLines d = [] <;> by_cases h2 : moneyLines d = [] <;>
    simp [h1, h2, List.count_append, List.count_cons, cb, cs, cbk, cm, cbl, headerLine]

/-- C3 (amended): groups with zero populated lines contribute no blank
separator; the bank group and the cash/expense group are each preceded
by exactly one blank separator line when populated; the identity/date,
sales and balance groups are emitted without a preceding blank line.
Hence the blank-line count of the whole message is one per populated
bank/cash-expense group and zero otherwise. -/
theorem message_group_separators (d : Report) :
    msgLines d = [headerLine] ++ basicLines d ++ salesLines d
        ++ (if bankLines d = [] then [] else [""] ++ bankLines d)
        ++ (if moneyLines d = [] then [] else [""] ++ moneyLines d)
        ++ balanceLines d
      ∧ (msgLines d).count ""
        = (if bankLines d = [] then 0 else 1) + (if moneyLines d = [] then 0 else 1) := by
  refine ⟨?_, count_blank_msgLines d⟩
  unfold msgLines
  by_cases h1 : bankLines d = [] <;> by_cases h2 : moneyLines d = [] <;> simp [h1, h2]

/-! ## C8 — load-for-display -/

/-- Whether a stored cell carries a value in the claim's sense: a
number always does, a missing cell never does, and a string does iff it
is not empty or whitespace-only after trimming. -/
def cellHasValue : Cell → Bool
  | .na => false
  | .num _ => true
  | .str s => !((pyStrip s).data.all Char.isWhitespace)

/-- How a stored cell is rendered by load-for-display: strings are
trimmed, and a cell with no value renders as the empty string. -/
def displayCell : Cell → Cell
  | .na => .str ""
  | .num n => .num n
  | .str s => if (pyStrip s).data.all Char.isWhitespace then .str "" else .str (pyStrip s)

lemma cell_pipeline_value (c : Cell) :
    (blankToNA (cellStrip c) != Cell.na) = cellHasValue c := by
  cases c with
  | na => rfl
  | num n => rfl
  | str s =>
    simp only [cellStrip, blankToNA, cellHasValue]
    split
    · simp_all
    · rename_i h
      rw [Bool.not_eq_true] at h
      rw [h]
      rfl

lemma cell_pipeline_display (c : Cell) :
    fillCell (blankToNA (cellStrip c)) = displayCell c := by
  cases c with
  | na => rfl
  | num n => rfl
  | str s =>
    simp only [cellStrip, blankToNA, displayCell]
    split
    · simp_all [fillCell]
    · simp_all [fillCell]

lemma list_any_congr {α : Type} {l : List α} {p q : α → Bool}
    (h : ∀ x ∈ l, p x = q x) : l.any p = l.any q := by
  induction l with
  | nil => rfl
  | cons a t ih =>
    simp only [List.any_cons, h a (List.mem_cons_self a t),
      ih (fun x hx => h x (List.mem_cons_of_mem a hx))]

lemma map_getD_cell (r : List Cell) (f : Cell → Cell) (i : Nat) :
    (r.map f).getD i Cell.na = ((r.get? i).map f).getD Cell.na := by
  simp [List.getD_eq_getElem?_getD]

lemma getD_get?_cell (r : List Cell) (i : Nat) :
    r.getD i Cell.na = (r.get? i).getD Cell.na := by
  simp [List.getD_eq_getElem?_getD]

lemma transformed_getD_value (r : List Cell) (i : Nat) :
    ((r.map (fun c => blankToNA (cellStrip c))).getD i Cell.na != Cell.na)
      = cellHasValue (r.getD i Cell.na) := by
  rw [map_getD_cell, getD_get?_cell]
  cases h : r.get? i with
  | none => rfl
  | some c => simp only [Option.map_some', Option.getD_some, cell_pipeline_value]

lemma transformed_getD_display (r : List Cell) (i : Nat) :
    fillCell ((r.map (fun c => blankToNA (cellStrip c))).getD i Cell.na)
      = displayCell (r.getD i Cell.na) := by
  rw [map_getD_cell, getD_get?_cell]
  cases h : r.get? i with
  | none => rfl
  | some c => simp only [Option.map_some', Option.getD_some, cell_pipeline_display]

/-- C8: load-for-display returns exactly the columns with at least one
valued cell, in their original relative order, and every returned cell
is the trimmed string (with a value-less cell rendered as ""). -/
theorem load_for_display_characterisation (df : DataFrame) :
    (reports_view (some df)).1
      = ((List.range df.cols.length).filter
          (fun i => df.rows.any (fun r => cellHasValue (r.getD i Cell.na)))).map
          (fun i => df.cols.getD i "") ∧
    (reports_view (some df)).2
      = df.rows.map (fun r =>
          ((List.range df.cols.length).filter
            (fun i => df.rows.any (fun rr => cellHasValue (rr.getD i Cell.na)))).map
            (fun i => displayCell (r.getD i Cell.na))) := by
  have hkeep :
      ((List.range df.cols.length).filter
        (fun i => (df.rows.map (fun r => r.map (fun c => blankToNA (cellStrip c)))).any
          (fun r => r.getD i Cell.na != Cell.na)))
        = ((List.range df.cols.length).filter
            (fun i => df.rows.any (fun r => cellHasValue (r.getD i Cell.na)))) := by
    apply List.filter_congr
    intro i _
    rw [List.any_map]
    exact list_any_congr (fun r _ => transformed_getD_value r i)
  constructor
  · simp only [reports_view, load_reports_df]
    rw [hkeep]
  · simp only [reports_view, load_reports_df]
    rw [hkeep, List.map_map, List.map_map]
    apply List.map_congr_left
    intro r _
    simp only [Function.comp_apply, List.map_map]
    apply List.map_congr_left
    intro i _
    simp only [Function.comp_apply, transformed_getD_display]

/-! ## C1 — rejected upload: abort, no send, but the row is already saved -/

/-- The spec's sample report: name "Srey", 50 glasses, everything else
empty. -/
def sampleReport : Report :=
  ⟨ "", "", "Srey", "50", "", "", "", "", "", "", "", "", "", "", "", "" ⟩

/-- A request environment whose Excel append succeeds and whose network
acknowledges everything. -/
def okEnv : Env :=
  { allowed := ALLOWED_EXTENSIONS
    cfg := ⟨ "token", "chat" ⟩
    excelOutcome := .ok ()
    netText := .resp (some true) none
    netAttach := .resp (some true) none }

/-- Counterexample to C1 as stated: submitting with a disallowed
attachment extension (.exe) aborts the request and performs no send
operation, but the ledger row HAS been persisted (`save_to_excel` runs
before the extension check). -/
theorem upload_rejection_counterexample :
    (index_post okEnv sampleReport (some "virus.exe")).aborted = true ∧
    (index_post okEnv sampleReport (some "virus.exe")).calls = [] ∧
    (index_post okEnv sampleReport (some "virus.exe")).excelWritten = true := by
  decide

/-- C1 (amended): for every submission whose attachment extension fails
the allow-list check, the request is aborted with the validation error
flashed and no send operation is invoked — but the ledger append has
already been attempted, and a row is persisted exactly when that append
succeeds. -/
theorem upload_rejection_behaviour (env : Env) (d : Report) (f : String)
    (h : allowed_file env.allowed f = false) :
    (index_post env d (some f)).aborted = true ∧
    (index_post env d (some f)).calls = [] ∧
    Flash.fileTypeNotAllowed f ∈ (index_post env d (some f)).flashes ∧
    (index_post env d (some f)).excelWritten
      = (match env.excelOutcome with | .ok _ => true | .error _ => false) := by
  simp only [index_post]
  rw [if_neg (by simp [h])]
  refine ⟨rfl, rfl, ?_, rfl⟩
  exact List.mem_append_right _ (List.mem_singleton_self _)

/-- Witness for C1 (amended), with a failing Excel append: still
aborted, no sends, and no row persisted because the append itself
failed. -/
theorem upload_rejection_behaviour_witness :
    allowed_file ALLOWED_EXTENSIONS "run.bat" = false ∧
    (index_post { okEnv with excelOutcome := .error "disk" } sampleReport (some "run.bat")).aborted
      = true ∧
    Flash.fileTypeNotAllowed "run.bat"
      ∈ (index_post { okEnv with excelOutcome := .error "disk" } sampleReport (some "run.bat")).flashes :=
  ⟨by decide,
   (upload_rejection_behaviour { okEnv with excelOutcome := .error "disk" } sampleReport "run.bat"
     (by decide)).1,
   (upload_rejection_behaviour { okEnv with excelOutcome := .error "disk" } sampleReport "run.bat"
     (by decide)).2.2.1⟩

/-! ## C2 — which failures reach the user -/

/-- An environment in which the text send is acknowledged but the
attachment send raises a transport exception. -/
def maskedFailureEnv : Env :=
  { allowed := ALLOWED_EXTENSIONS
    cfg := ⟨ "token", "chat" ⟩
    excelOutcome := .ok ()
    netText := .resp (some true) none
    netAttach := .exc "boom" }

/-- Counterexample to C2 as stated: with a jpg attachment whose photo
send fails (transport exception "boom") while the text send succeeds,
the only status message flashed is the success one — the
attachment-send failure is not surfaced to the user. -/
theorem failure_surfacing_counterexample :
    (index_post maskedFailureEnv sampleReport (some "pic.jpg")).flashes
      = [Flash.sendSuccess] ∧
    (tg_send_photo maskedFailureEnv.cfg (attachment_caption sampleReport)
      maskedFailureEnv.netAttach).1.ok = false := by
  decide

lemma send_stage_flashes_shape (env : Env) (d : Report) (attachExt : Option String)
    (ew : Bool) (fl : List Flash) :
    ∃ rf, (send_stage env d attachExt ew fl).flashes = fl ++ [rf] :=
  ⟨_, rfl⟩

lemma send_stage_flash_spec (env : Env) (d : Report) (attachExt : Option String)
    (ew : Bool) (fl : List Flash)
    (hnf : ∀ m, Flash.sendFailure m ∉ fl) (hns : Flash.sendSuccess ∉ fl) :
    ((∃ m, Flash.sendFailure m ∈ (send_stage env d attachExt ew fl).flashes)
      ↔ ((tg_send_message env.cfg (build_tg_message d) env.netText).1.ok
          || ((attachExt.map (fun ext =>
                (attach_send env.cfg (attachment_caption d) env.netAttach ext).1.ok)).getD false))
        = false) ∧
    (Flash.sendSuccess ∈ (send_stage env d attachExt ew fl).flashes
      ↔ ((tg_send_message env.cfg (build_tg_message d) env.netText).1.ok
          || ((attachExt.map (fun ext =>
                (attach_send env.cfg (attachment_caption d) env.netAttach ext).1.ok)).getD false))
        = true) := by
  cases attachExt with
  | none =>
    cases hok : (tg_send_message env.cfg (build_tg_message d) env.netText).1.ok <;>
      simp [send_stage, hok, hnf, hns, List.mem_append]
  | some ext =>
    cases hok : (tg_send_message env.cfg (build_tg_message d) env.netText).1.ok <;>
      cases hok2 : (attach_send env.cfg (attachment_caption d) env.netAttach ext).1.ok <;>
        simp [send_stage, hok, hok2, hnf, hns, List.mem_append]

/-- C2 (amended): for every submission — including one aborted by the
extension check, since the ledger append precedes that check — a ledger
persistence failure is always surfaced as a warning status message, and
the handler always produces a result (every failure is captured as a
value, none propagates).  A send failure, however, is surfaced if and
only if NO send operation succeeded: on every submission that reaches
the send stage (no attachment, or an attachment passing the extension
check), when the text send and the attachment send disagree, the
success message is flashed and the other operation's failure is
silently dropped. -/
theorem submission_failure_surfacing (env : Env) (d : Report) (upload : Option String) :
    (∀ e, env.excelOutcome = .error e →
        Flash.excelWarning e ∈ (index_post env d upload).flashes) ∧
    ((match upload with
      | none => True
      | some f => allowed_file env.allowed f = true) →
      ((∃ m, Flash.sendFailure m ∈ (index_post env d upload).flashes)
        ↔ ((tg_send_message env.cfg (build_tg_message d) env.netText).1.ok
            || ((upload.map (fun f =>
                  (attach_send env.cfg (attachment_caption d) env.netAttach (get_ext f)).1.ok)).getD false))
          = false) ∧
      (Flash.sendSuccess ∈ (index_post env d upload).flashes
        ↔ ((tg_send_message env.cfg (build_tg_message d) env.netText).1.ok
            || ((upload.map (fun f =>
                  (attach_send env.cfg (attachment_caption d) env.netAttach (get_ext f)).1.ok)).getD false))
          = true)) := by
  have hnf : ∀ m, Flash.sendFailure m ∉ (match env.excelOutcome with
      | .ok _ => ([] : List Flash)
      | .error e => [Flash.excelWarning e]) := by
    intro m
    cases env.excelOutcome <;> simp
  have hns : Flash.sendSuccess ∉ (match env.excelOutcome with
      | .ok _ => ([] : List Flash)
      | .error e => [Flash.excelWarning e]) := by
    cases env.excelOutcome <;> simp
  constructor
  · intro e he
    cases upload with
    | none =>
      obtain ⟨rf, hrf⟩ := send_stage_flashes_shape env d none
        (match env.excelOutcome with | .ok _ => true | .error _ => false)
        (match env.excelOutcome with
          | .ok _ => ([] : List Flash)
          | .error e => [Flash.excelWarning e])
      show Flash.excelWarning e ∈ (send_stage env d none _ _).flashes
      rw [hrf, he]
      exact List.mem_append_left _ (List.mem_singleton_self _)
    | some f =>
      cases hf : allowed_file env.allowed f with
      | false =>
        simp only [index_post]
        rw [if_neg (by simp [hf])]
        simp [he]
      | true =>
        have hi : index_post env d (some f)
            = send_stage env d (some (get_ext f))
                (match env.excelOutcome with | .ok _ => true | .error _ => false)
                (match env.excelOutcome with
                  | .ok _ => ([] : List Flash)
                  | .error e => [Flash.excelWarning e]) := by
          simp only [index_post]
          rw [if_pos hf]
        rw [hi]
        obtain ⟨rf, hrf⟩ := send_stage_flashes_shape env d (some (get_ext f))
          (match env.excelOutcome with | .ok _ => true | .error _ => false)
          (match env.excelOutcome with
            | .ok _ => ([] : List Flash)
            | .error e => [Flash.excelWarning e])
        rw [hrf, he]
        exact List.mem_append_left _ (List.mem_singleton_self _)
  · intro hup
    cases upload with
    | none =>
      have hspec := send_stage_flash_spec env d none
        (match env.excelOutcome with | .ok _ => true | .error _ => false)
        (match env.excelOutcome with
          | .ok _ => ([] : List Flash)
          | .error e => [Flash.excelWarning e]) hnf hns
      exact ⟨hspec.1, hspec.2⟩
    | some f =>
      have hf : allowed_file env.allowed f = true := hup
      have hspec := send_stage_flash_spec env d (some (get_ext f))
        (match env.excelOutcome with | .ok _ => true | .error _ => false)
        (match env.excelOutcome with
          | .ok _ => ([] : List Flash)
          | .error e => [Flash.excelWarning e]) hnf hns
      have hi : index_post env d (some f)
          = send_stage env d (some (get_ext f))
              (match env.excelOutcome with | .ok _ => true | .error _ => false)
              (match env.excelOutcome with
                | .ok _ => ([] : List Flash)
                | .error e => [Flash.excelWarning e]) := by
        simp only [index_post]
        rw [if_pos hf]
      rw [hi]
      constructor
      · rw [hspec.1]
        simp
      · rw [hspec.2]
        simp

/-- An environment whose Excel append and text send both fail. -/
def doubleFailureEnv : Env :=
  { allowed := ALLOWED_EXTENSIONS
    cfg := ⟨ "token", "chat" ⟩
    excelOutcome := .error "disk full"
    netText := .exc "timeout"
    netAttach := .resp (some true) none }

/-- Witness for C2 (amended): with a failing Excel append and a failing
text send and no attachment, both the persistence warning and the send
failure are flashed; and with a rejected attachment extension on the
same failing append, the persistence warning is still flashed. -/
theorem submission_failure_surfacing_witness :
    Flash.excelWarning "disk full" ∈ (index_post doubleFailureEnv sampleReport none).flashes ∧
    (∃ m, Flash.sendFailure m ∈ (index_post doubleFailureEnv sampleReport none).flashes) ∧
    Flash.excelWarning "disk full"
      ∈ (index_post doubleFailureEnv sampleReport (some "x.exe")).flashes := by
  have h := submission_failure_surfacing doubleFailureEnv sampleReport none
  have h2 := submission_failure_surfacing doubleFailureEnv sampleReport (some "x.exe")
  exact ⟨h.1 "disk full" rfl, (h.2 trivial).1.mpr (by decide), h2.1 "disk full" rfl⟩
